import Mathlib

/-!
# Verification of the OpenPrices analytics engine

Shallow embedding of `open_prices/analytics.py` (the aggregation/metrics
engine) and proofs of the specified properties.

## Modelling conventions

* A pandas `DataFrame` of sales observations is a `List Row`.  The source
  selects the dimension column and the filter column dynamically by string
  name (`columnName`, `filterColumn`); we model the table as already viewed
  through those two chosen columns: `Row.dim` holds the row's value in the
  dimension column and `Row.filt` its value in the filter column.  The
  remaining columns used by the engine (`year`, `month`, `price_per`,
  `price`) are explicit fields.  Per the data-model contract, dimension
  values are strings (nulls/blanks removed upstream) and `price` is numeric
  with missing values dropped upstream, so `price : Rat`.
* A pandas `Series` indexed by dimension values is a `List (String × α)`
  of (index value, entry) pairs, in index order.
* `value_counts()` lists the distinct values with their multiplicities,
  sorted by count descending; the sort is modelled as a stable insertion
  sort (ties keep first-occurrence order, a deterministic refinement of
  pandas' unspecified tie order).
* `Series.head(n)` with `n = None` is `iloc[:None]`, i.e. the whole
  series; with an integer it takes the first `n` entries.
* `groupby(col)[...].mean()` / `.size()` / `.nunique()` become maps over
  the distinct keys; `reindex(idx, fill_value=0)` becomes a lookup with
  default `0` over the target index.
* `pd.concat([])` raises `ValueError`; `makeDfTrendData` therefore returns
  an `Option`, `none` modelling the raised error.
* For the frame/no-mutation property, pandas objects live in an explicit
  store (`Store`, a list of allocated frame values); each statement of the
  source that creates a frame allocates, and the single subscript
  assignment (`monthlyData["item"] = item`) writes to the store.
-/

/-- One sales observation row, viewed through a chosen dimension column
(`dim`) and a chosen filter column (`filt`). -/
structure Row where
  year : Int
  month : Int
  filt : String
  dim : String
  price_per : String
  price : Rat
  deriving DecidableEq, Repr

/-- One output row of `makeDfTrendData`: columns `month`, `count`, `item`.
(The `count` column is float in pandas after `fillna(0)`; its value is the
natural number of matching rows.) -/
structure TrendRow where
  month : Int
  count : Nat
  item : String
  deriving DecidableEq, Repr

/-- Distinct values of a list, first occurrence order (pandas unique). -/
def distinctVals {α : Type} [DecidableEq α] (l : List α) : List α :=
  l.foldl (fun acc v => if v ∈ acc then acc else acc ++ [v]) []

/-- Series lookup by index value with a default: `s.get(v, d)`.  Also the
per-value view of `reindex`: an index value absent from the series maps to
the fill value. -/
def lookupD {α : Type} (s : List (String × α)) (v : String) (d : α) : α :=
  match s.find? (fun p => p.1 == v) with
  | some p => p.2
  | none => d

/-- `reindex(idx, fill_value=fill)`: realign a series onto `idx`. -/
def reindexS {α : Type} (s : List (String × α)) (idx : List String) (fill : α) :
    List (String × α) :=
  idx.map (fun v => (v, lookupD s v fill))

/-- Insert a (value, count) pair into a count-descending list, after all
entries with a greater-or-equal count (stability of the sort). -/
def insertPair (p : String × Nat) : List (String × Nat) → List (String × Nat)
  | [] => [p]
  | q :: qs => if q.2 < p.2 then p :: q :: qs else q :: insertPair p qs

/-- Stable sort by count, descending. -/
def sortCountsDesc (l : List (String × Nat)) : List (String × Nat) :=
  l.foldl (fun acc p => insertPair p acc) []

/-- `series.value_counts()`: multiplicity of each distinct value, sorted by
count descending. -/
def valueCounts (l : List String) : List (String × Nat) :=
  sortCountsDesc ((distinctVals l).map (fun v => (v, (l.filter (fun x => x == v)).length)))

/-- `series.head(n)` for `n : int | None`: `iloc[:n]`, the whole series
when `n` is `None`. -/
def headS {α : Type} (n : Option Nat) (l : List α) : List α :=
  match n with
  | none => l
  | some k => l.take k

/-- The row filter shared by the engine's entry points:
`df[(df[filterColumn] == filterValue) & (df["year"] == selectedYears)]`. -/
def filterRows (df : List Row) (filterValue : String) (selectedYears : Int) : List Row :=
  df.filter (fun r => r.filt == filterValue && r.year == selectedYears)

/-- `groupby(columnName)["price"].mean()`: mean price per distinct dimension
value of `df` (each group is nonempty, so the mean is well defined; the
group-key order is irrelevant because every use is through `reindexS`). -/
def groupbyMeanPrice (df : List Row) : List (String × Rat) :=
  (distinctVals (df.map (fun r => r.dim))).map
    (fun v =>
      (v, ((df.filter (fun r => r.dim == v)).map (fun r => r.price)).sum /
        ((df.filter (fun r => r.dim == v)).length : Rat)))

/-- Elementwise product of an int-valued and a float-valued series aligned
on the same index (pandas `intSeries * floatSeries` on identical indices). -/
def seriesMulNS (a : List (String × Nat)) (b : List (String × Rat)) : List (String × Rat) :=
  List.zipWith (fun p q => (p.1, (p.2 : Rat) * q.2)) a b

/-- Elementwise sum of two float-valued series aligned on the same index. -/
def seriesAdd (a b : List (String × Rat)) : List (String × Rat) :=
  List.zipWith (fun p q => (p.1, p.2 + q.2)) a b

/-- The six aligned series returned by `computeSalesMetrics`. -/
structure SalesMetrics where
  productCategoryCounts : List (String × Nat)
  salesKiloTop : List (String × Nat)
  priceKiloTop : List (String × Rat)
  salesUnitTop : List (String × Nat)
  priceUnitTop : List (String × Rat)
  totalPrices : List (String × Rat)
  deriving DecidableEq, Repr

/-- `computeSalesMetrics` (analytics.py): filter by (filterColumn = value,
year), rank dimension values by count (optionally truncated to the top `n`),
split by `price_per`, compute counts and mean prices reindexed onto the
ranked index with fill 0, and the estimated total prices. -/
def computeSalesMetrics (df : List Row) (filterValue : String) (selectedYears : Int)
    (head : Bool) (n : Option Nat := none) : SalesMetrics :=
  let dfFiltered := filterRows df filterValue selectedYears
  let productCategoryCounts :=
    if head then headS n (valueCounts (dfFiltered.map (fun r => r.dim)))
    else valueCounts (dfFiltered.map (fun r => r.dim))
  let idx := productCategoryCounts.map Prod.fst
  let kiloRows := dfFiltered.filter (fun r => r.price_per == "KILOGRAM")
  let unitRows := dfFiltered.filter (fun r => r.price_per == "UNIT")
  let priceKiloTop := reindexS (groupbyMeanPrice kiloRows) idx 0
  let priceUnitTop := reindexS (groupbyMeanPrice unitRows) idx 0
  let salesKiloTop := reindexS (valueCounts (kiloRows.map (fun r => r.dim))) idx 0
  let salesUnitTop := reindexS (valueCounts (unitRows.map (fun r => r.dim))) idx 0
  let totalPrices := seriesAdd (seriesMulNS salesKiloTop priceKiloTop)
    (seriesMulNS salesUnitTop priceUnitTop)
  { productCategoryCounts := productCategoryCounts
    salesKiloTop := salesKiloTop
    priceKiloTop := priceKiloTop
    salesUnitTop := salesUnitTop
    priceUnitTop := priceUnitTop
    totalPrices := totalPrices }

/-- The three aligned series returned by `computeSalesMetricsForYear`. -/
structure YearMetrics where
  dimensionCounts : List (String × Nat)
  salesKiloTop : List (String × Nat)
  salesUnitTop : List (String × Nat)
  deriving DecidableEq, Repr

/-- The year filter of `computeSalesMetricsForYear`:
`df[df["year"] == selectedYears]` when a year is given, the whole table
when `selectedYears is None`. -/
def filterRowsYear (df : List Row) (selectedYears : Option Int) : List Row :=
  match selectedYears with
  | some y => df.filter (fun r => r.year == y)
  | none => df

/-- `computeSalesMetricsForYear` (analytics.py): filter by year when one is
given (`None` means no year restriction), rank dimension values by count
(optionally truncated), and reindex the per-`price_per` counts. -/
def computeSalesMetricsForYear (df : List Row) (selectedYears : Option Int)
    (head : Bool) (n : Option Nat := none) : YearMetrics :=
  let dfFiltered : List Row := filterRowsYear df selectedYears
  let dimensionCounts :=
    if head then headS n (valueCounts (dfFiltered.map (fun r => r.dim)))
    else valueCounts (dfFiltered.map (fun r => r.dim))
  let idx := dimensionCounts.map Prod.fst
  let salesKiloTop := reindexS
    (valueCounts ((dfFiltered.filter (fun r => r.price_per == "KILOGRAM")).map
      (fun r => r.dim))) idx 0
  let salesUnitTop := reindexS
    (valueCounts ((dfFiltered.filter (fun r => r.price_per == "UNIT")).map
      (fun r => r.dim))) idx 0
  { dimensionCounts := dimensionCounts
    salesKiloTop := salesKiloTop
    salesUnitTop := salesUnitTop }

/-- `groupby(columnName).size()` of `df` at a dimension value. -/
def itemCount (df : List Row) (v : String) : Nat :=
  (df.filter (fun r => r.dim == v)).length

/-- `groupby(columnName)["month"].nunique()` of `df` at a dimension value. -/
def monthCount (df : List Row) (v : String) : Nat :=
  (distinctVals ((df.filter (fun r => r.dim == v)).map (fun r => r.month))).length

/-- The qualifying set computed inside `filterItemsByMinSales` (lines
423-427 of analytics.py): `validItemsBySales.intersection(validItemsByMonths)`
where the two valid index sets come from `groupby(columnName).size()` and
`groupby(columnName)["month"].nunique()` over the filtered slice. -/
def validItemsOf (dfFiltered : List Row) (minSales minMonths : Nat) : List String :=
  let keys := distinctVals (dfFiltered.map (fun r => r.dim))
  let itemCounts := keys.map (fun v => (v, itemCount dfFiltered v))
  let validItemsBySales := (itemCounts.filter (fun p => minSales ≤ p.2)).map Prod.fst
  let monthCounts := keys.map (fun v => (v, monthCount dfFiltered v))
  let validItemsByMonths := (monthCounts.filter (fun p => minMonths ≤ p.2)).map Prod.fst
  validItemsBySales.filter (fun v => v ∈ validItemsByMonths)

/-- `filterItemsByMinSales` (analytics.py): keep the rows of the filtered
slice whose dimension value has at least `minSales` rows and appears in at
least `minMonths` distinct months (intersection of the two valid sets). -/
def filterItemsByMinSales (df : List Row) (selectCountryCurrency : String)
    (selectedYears : Int) (minSales : Nat := 10) (minMonths : Nat := 2) : List Row :=
  let dfFiltered := filterRows df selectCountryCurrency selectedYears
  let validItems := validItemsOf dfFiltered minSales minMonths
  dfFiltered.filter (fun r => r.dim ∈ validItems)

/-- The dense month calendar `pd.DataFrame({"month": range(1, 13)})`. -/
def allMonths : List Int := (List.range 12).map (fun (m : Nat) => (m : Int) + 1)

/-- One per-item block of `makeDfTrendData`: the dense 1..12 month calendar
left-joined with the item's monthly group sizes, missing months filled with
0, tagged with the item. -/
def trendBlock (dfFiltered : List Row) (item : String) : List TrendRow :=
  let dfItem := dfFiltered.filter (fun r => r.dim == item)
  allMonths.map
    (fun mi =>
      { month := mi
        count := (dfItem.filter (fun r => r.month == mi)).length
        item := item })

/-- `makeDfTrendData` (analytics.py): per selected item, the dense monthly
count block; the blocks are concatenated in the order of `selectedItems`.
`pd.concat` of an empty list of blocks raises `ValueError`, modelled as
`none`. -/
def makeDfTrendData (df : List Row) (selectCountryCurrency : String)
    (selectedYears : Int) (selectedItems : List String) : Option (List TrendRow) :=
  let dfFiltered := filterRows df selectCountryCurrency selectedYears
  let results := selectedItems.map (fun item => trendBlock dfFiltered item)
  if results.isEmpty then none else some results.flatten

/-! ## Store model for the frame (no-mutation) property

Pandas `DataFrame`/`Series` objects are heap objects; the claim that the
engine does not mutate its input table is stated over an explicit store.
Each source statement that creates a frame allocates a fresh cell; the one
subscript assignment in the engine (`monthlyData["item"] = item` in
`makeDfTrendData`) writes, and only to the freshly allocated cell of the
frame produced by the `merge` on the same iteration.  Boolean-mask
selection, `groupby`, `value_counts`, `reindex` and `merge` all return new
objects in pandas and never write to their operand. -/

/-- A pandas object held in the store: a frame of observation rows, the
(month, count) frame produced by the `merge`, or that frame after the
`item` column is assigned. -/
inductive PdVal where
  | rows : List Row → PdVal
  | monthCounts : List (Int × Nat) → PdVal
  | trend : List TrendRow → PdVal
  deriving DecidableEq, Repr

/-- The store of allocated pandas objects; a frame id is a position. -/
abbrev Store := List PdVal

/-- Read the object at a frame id. -/
def readF (s : Store) (i : Nat) : PdVal := s.getD i (PdVal.rows [])

/-- Allocate a fresh cell holding `v`; returns its id. -/
def allocF (s : Store) (v : PdVal) : Nat × Store := (s.length, s ++ [v])

/-- Overwrite the cell at id `i` (a subscript assignment). -/
def writeF (s : Store) (i : Nat) (v : PdVal) : Store := s.set i v

/-- The row-frame content of a store value. -/
def getRows : PdVal → List Row
  | PdVal.rows l => l
  | _ => []

/-- `computeSalesMetrics` acting on the store: reads the input frame,
allocates the filtered slice and the two `price_per` slices, writes
nothing. -/
def computeSalesMetricsSt (s : Store) (dfId : Nat) (filterValue : String)
    (selectedYears : Int) (head : Bool) (n : Option Nat) : SalesMetrics × Store :=
  let df := getRows (readF s dfId)
  let dfFiltered := filterRows df filterValue selectedYears
  let s1 := (allocF s (PdVal.rows dfFiltered)).2
  let s2 := (allocF s1 (PdVal.rows (dfFiltered.filter (fun r => r.price_per == "KILOGRAM")))).2
  let s3 := (allocF s2 (PdVal.rows (dfFiltered.filter (fun r => r.price_per == "UNIT")))).2
  (computeSalesMetrics df filterValue selectedYears head n, s3)

/-- `computeSalesMetricsForYear` acting on the store.  With a `None` year
the source binds `dfFiltered = df` (the same object, no allocation). -/
def computeSalesMetricsForYearSt (s : Store) (dfId : Nat) (selectedYears : Option Int)
    (head : Bool) (n : Option Nat) : YearMetrics × Store :=
  let df := getRows (readF s dfId)
  let s1 : Store :=
    match selectedYears with
    | some y => (allocF s (PdVal.rows (df.filter (fun r => r.year == y)))).2
    | none => s
  let dfFiltered : List Row :=
    match selectedYears with
    | some y => df.filter (fun r => r.year == y)
    | none => df
  let s2 := (allocF s1 (PdVal.rows (dfFiltered.filter (fun r => r.price_per == "KILOGRAM")))).2
  let s3 := (allocF s2 (PdVal.rows (dfFiltered.filter (fun r => r.price_per == "UNIT")))).2
  (computeSalesMetricsForYear df selectedYears head n, s3)

/-- `filterItemsByMinSales` acting on the store: allocates the filtered
slice and the result frame, writes nothing. -/
def filterItemsByMinSalesSt (s : Store) (dfId : Nat) (selectCountryCurrency : String)
    (selectedYears : Int) (minSales minMonths : Nat) : List Row × Store :=
  let df := getRows (readF s dfId)
  let s1 := (allocF s (PdVal.rows (filterRows df selectCountryCurrency selectedYears))).2
  let out := filterItemsByMinSales df selectCountryCurrency selectedYears minSales minMonths
  let s2 := (allocF s1 (PdVal.rows out)).2
  (out, s2)

/-- The loop body of `makeDfTrendData` over the store: per item, allocate
`dfItem` and the merged `monthlyData` frame, then assign its `item` column
(the write), and collect the block.  Python's `results` list holds
references whose contents are never written again, so the block values are
collected directly. -/
def trendLoopSt (dfFiltered : List Row) :
    List String → Store → List (List TrendRow) × Store
  | [], s => ([], s)
  | item :: rest, s =>
    let s1 := (allocF s (PdVal.rows (dfFiltered.filter (fun r => r.dim == item)))).2
    let mdId := (allocF s1 (PdVal.monthCounts
      ((trendBlock dfFiltered item).map (fun tr => (tr.month, tr.count))))).1
    let s2 := (allocF s1 (PdVal.monthCounts
      ((trendBlock dfFiltered item).map (fun tr => (tr.month, tr.count))))).2
    let s3 := writeF s2 mdId (PdVal.trend (trendBlock dfFiltered item))
    let rest2 := trendLoopSt dfFiltered rest s3
    (trendBlock dfFiltered item :: rest2.1, rest2.2)

/-- `makeDfTrendData` acting on the store. -/
def makeDfTrendDataSt (s : Store) (dfId : Nat) (selectCountryCurrency : String)
    (selectedYears : Int) (selectedItems : List String) :
    Option (List TrendRow) × Store :=
  let df := getRows (readF s dfId)
  let dfFiltered := filterRows df selectCountryCurrency selectedYears
  let s1 := (allocF s (PdVal.rows dfFiltered)).2
  let res := trendLoopSt dfFiltered selectedItems s1
  (if res.1.isEmpty then none else some res.1.flatten, res.2)

/-! ## Basic lemmas about the series combinators -/

lemma mem_foldl_distinct {α : Type} [DecidableEq α] (l : List α) (acc : List α) (v : α) :
    v ∈ l.foldl (fun acc v => if v ∈ acc then acc else acc ++ [v]) acc ↔ v ∈ acc ∨ v ∈ l := by
  induction l generalizing acc with
  | nil => simp
  | cons x xs ih =>
    simp only [List.foldl_cons, ih]
    by_cases hx : x ∈ acc
    · simp only [if_pos hx, List.mem_cons]
      constructor
      · rintro (h | h)
        · exact Or.inl h
        · exact Or.inr (Or.inr h)
      · rintro (h | rfl | h)
        · exact Or.inl h
        · exact Or.inl hx
        · exact Or.inr h
    · simp only [if_neg hx, List.mem_append, List.mem_singleton, List.mem_cons]
      tauto

lemma mem_distinctVals {α : Type} [DecidableEq α] (l : List α) (v : α) :
    v ∈ distinctVals l ↔ v ∈ l := by
  simp [distinctVals, mem_foldl_distinct]

lemma insertPair_perm (p : String × Nat) (l : List (String × Nat)) :
    (insertPair p l).Perm (p :: l) := by
  induction l with
  | nil => simp [insertPair]
  | cons q qs ih =>
    simp only [insertPair]
    by_cases h : q.2 < p.2
    · simp [h]
    · simp only [if_neg h]
      exact (ih.cons q).trans (List.Perm.swap p q qs)

lemma sortCountsDesc_perm (l : List (String × Nat)) : (sortCountsDesc l).Perm l := by
  suffices h : ∀ acc : List (String × Nat),
      (l.foldl (fun acc p => insertPair p acc) acc).Perm (acc ++ l) by
    simpa [sortCountsDesc] using h []
  induction l with
  | nil => simp
  | cons x xs ih =>
    intro acc
    simp only [List.foldl_cons]
    refine (ih (insertPair x acc)).trans ?_
    refine (List.Perm.append_right xs ((insertPair_perm x acc))).trans ?_
    simpa using List.perm_middle.symm

lemma pairwise_insertPair (p : String × Nat) (l : List (String × Nat))
    (h : l.Pairwise (fun a b => b.2 ≤ a.2)) :
    (insertPair p l).Pairwise (fun a b => b.2 ≤ a.2) := by
  induction l with
  | nil => simp [insertPair]
  | cons q qs ih =>
    simp only [insertPair]
    rcases List.pairwise_cons.mp h with ⟨hq, hqs⟩
    by_cases hlt : q.2 < p.2
    · simp only [if_pos hlt]
      refine List.pairwise_cons.mpr ⟨?_, h⟩
      intro x hx
      rcases List.mem_cons.mp hx with rfl | hx
      · exact le_of_lt hlt
      · exact le_trans (hq x hx) (le_of_lt hlt)
    · simp only [if_neg hlt]
      refine List.pairwise_cons.mpr ⟨?_, ih hqs⟩
      intro x hx
      have hx2 : x ∈ p :: qs := (insertPair_perm p qs).mem_iff.mp hx
      rcases List.mem_cons.mp hx2 with rfl | hx3
      · exact Nat.le_of_not_lt hlt
      · exact hq x hx3

lemma sortCountsDesc_sorted (l : List (String × Nat)) :
    (sortCountsDesc l).Pairwise (fun a b => b.2 ≤ a.2) := by
  suffices h : ∀ acc : List (String × Nat), acc.Pairwise (fun a b => b.2 ≤ a.2) →
      (l.foldl (fun acc p => insertPair p acc) acc).Pairwise (fun a b => b.2 ≤ a.2) by
    exact h [] (by simp)
  induction l with
  | nil => intro acc hacc; simpa
  | cons x xs ih =>
    intro acc hacc
    simp only [List.foldl_cons]
    exact ih (insertPair x acc) (pairwise_insertPair x acc hacc)

lemma lookupD_map_self {α : Type} (idx : List String) (f : String → α) (v : String)
    (d : α) (hv : v ∈ idx) :
    lookupD (idx.map (fun x => (x, f x))) v d = f v := by
  induction idx with
  | nil => cases hv
  | cons x xs ih =>
    simp only [List.map_cons, lookupD, List.find?]
    by_cases hx : x = v
    · subst hx; simp
    · have hbeq : (x == v) = false := beq_eq_false_iff_ne.mpr hx
      simp only [hbeq]
      rcases List.mem_cons.mp hv with rfl | hv
      · exact absurd rfl hx
      · simpa [lookupD] using ih hv

lemma lookupD_not_mem {α : Type} (s : List (String × α)) (v : String) (d : α)
    (hv : v ∉ s.map Prod.fst) : lookupD s v d = d := by
  induction s with
  | nil => rfl
  | cons p ps ih =>
    simp only [List.map_cons, List.mem_cons] at hv
    push_neg at hv
    have hbeq : (p.1 == v) = false := beq_eq_false_iff_ne.mpr (Ne.symm hv.1)
    simpa [lookupD, List.find?, hbeq] using ih hv.2

lemma keys_reindexS {α : Type} (s : List (String × α)) (idx : List String) (fill : α) :
    (reindexS s idx fill).map Prod.fst = idx := by
  simp only [reindexS, List.map_map]
  exact List.map_id idx

lemma lookupD_reindexS {α : Type} (s : List (String × α)) (idx : List String)
    (fill : α) (v : String) (hv : v ∈ idx) :
    lookupD (reindexS s idx fill) v fill = lookupD s v fill := by
  simpa [reindexS] using lookupD_map_self idx (fun x => lookupD s x fill) v fill hv

lemma zipWith_map_same {α β γ δ : Type} (f : β → γ → δ) (g : α → β) (h : α → γ)
    (l : List α) : List.zipWith f (l.map g) (l.map h) = l.map (fun x => f (g x) (h x)) := by
  induction l with
  | nil => rfl
  | cons x xs ih => simp [ih]

lemma keys_valueCounts (l : List String) (v : String) :
    v ∈ (valueCounts l).map Prod.fst ↔ v ∈ l := by
  unfold valueCounts
  rw [((sortCountsDesc_perm _).map Prod.fst).mem_iff]
  simp [List.map_map, Function.comp, mem_distinctVals]

lemma length_valueCounts (l : List String) :
    (valueCounts l).length = (distinctVals l).length := by
  simpa using (sortCountsDesc_perm
    ((distinctVals l).map (fun v => (v, (l.filter (fun x => x == v)).length)))).length_eq

lemma valueCounts_sorted (l : List String) :
    (valueCounts l).Pairwise (fun a b => b.2 ≤ a.2) :=
  sortCountsDesc_sorted _

/-! ## Normal forms for the aligned series -/

lemma totalPrices_nf (idx : List String) (a c : List (String × Nat))
    (b d : List (String × Rat)) :
    seriesAdd (seriesMulNS (reindexS a idx 0) (reindexS b idx 0))
        (seriesMulNS (reindexS c idx 0) (reindexS d idx 0)) =
      idx.map (fun v => (v, ((lookupD a v 0 : Nat) : Rat) * lookupD b v 0 +
        ((lookupD c v 0 : Nat) : Rat) * lookupD d v 0)) := by
  unfold seriesAdd seriesMulNS reindexS
  rw [zipWith_map_same, zipWith_map_same, zipWith_map_same]

lemma keys_totalPrices (idx : List String) (a c : List (String × Nat))
    (b d : List (String × Rat)) :
    (seriesAdd (seriesMulNS (reindexS a idx 0) (reindexS b idx 0))
        (seriesMulNS (reindexS c idx 0) (reindexS d idx 0))).map Prod.fst = idx := by
  rw [totalPrices_nf]
  simp only [List.map_map]
  exact List.map_id idx

lemma aligned_identity (idx : List String) (a c : List (String × Nat))
    (b d : List (String × Rat)) (v : String) (hv : v ∈ idx) :
    lookupD (seriesAdd (seriesMulNS (reindexS a idx 0) (reindexS b idx 0))
        (seriesMulNS (reindexS c idx 0) (reindexS d idx 0))) v 0 =
      ((lookupD (reindexS a idx 0) v 0 : Nat) : Rat) * lookupD (reindexS b idx 0) v 0 +
        ((lookupD (reindexS c idx 0) v 0 : Nat) : Rat) * lookupD (reindexS d idx 0) v 0 := by
  rw [totalPrices_nf, lookupD_map_self _ _ _ _ hv,
    lookupD_reindexS _ _ _ _ hv, lookupD_reindexS _ _ _ _ hv,
    lookupD_reindexS _ _ _ _ hv, lookupD_reindexS _ _ _ _ hv]

lemma keys_groupbyMeanPrice (df : List Row) :
    (groupbyMeanPrice df).map Prod.fst = distinctVals (df.map (fun r => r.dim)) := by
  unfold groupbyMeanPrice
  simp only [List.map_map]
  exact List.map_id _

/-! ## Claim theorems: total-price identity, alignment, zero-fill, head(None) -/

/-- C1: for every input table, filter, year, head mode and `n`, and every
dimension value `v` in the ranked index returned by `computeSalesMetrics`,
the returned total price at `v` equals
kiloCount·kiloMeanPrice + unitCount·unitMeanPrice, all read at `v` from the
other four returned series. -/
theorem computeSalesMetrics_totalPrice_identity (df : List Row) (fv : String)
    (y : Int) (hd : Bool) (n : Option Nat) (v : String)
    (hv : v ∈ (computeSalesMetrics df fv y hd n).productCategoryCounts.map Prod.fst) :
    lookupD (computeSalesMetrics df fv y hd n).totalPrices v 0 =
      ((lookupD (computeSalesMetrics df fv y hd n).salesKiloTop v 0 : Nat) : Rat) *
          lookupD (computeSalesMetrics df fv y hd n).priceKiloTop v 0 +
        ((lookupD (computeSalesMetrics df fv y hd n).salesUnitTop v 0 : Nat) : Rat) *
          lookupD (computeSalesMetrics df fv y hd n).priceUnitTop v 0 := by
  exact aligned_identity _ _ _ _ _ v hv

/-- Concrete instance of the total-price identity (hypothesis discharged at
an explicit input). -/
def dfW : List Row := [
  { year := 2023, month := 1, filt := "EUR", dim := "A", price_per := "UNIT", price := 10 },
  { year := 2023, month := 1, filt := "EUR", dim := "A", price_per := "KILOGRAM", price := 20 },
  { year := 2023, month := 2, filt := "EUR", dim := "B", price_per := "UNIT", price := 15 },
  { year := 2023, month := 2, filt := "EUR", dim := "B", price_per := "OTHER", price := 30 }]

theorem computeSalesMetrics_totalPrice_identity_witness :
    ("A" ∈ (computeSalesMetrics dfW "EUR" 2023 true (some 2)).productCategoryCounts.map Prod.fst) ∧
      lookupD (computeSalesMetrics dfW "EUR" 2023 true (some 2)).totalPrices "A" 0 =
        ((lookupD (computeSalesMetrics dfW "EUR" 2023 true (some 2)).salesKiloTop "A" 0 : Nat) : Rat) *
            lookupD (computeSalesMetrics dfW "EUR" 2023 true (some 2)).priceKiloTop "A" 0 +
          ((lookupD (computeSalesMetrics dfW "EUR" 2023 true (some 2)).salesUnitTop "A" 0 : Nat) : Rat) *
            lookupD (computeSalesMetrics dfW "EUR" 2023 true (some 2)).priceUnitTop "A" 0 :=
  ⟨by decide,
    computeSalesMetrics_totalPrice_identity dfW "EUR" 2023 true (some 2) "A" (by decide)⟩

/-- C2: all series returned by a single `computeSalesMetrics` call carry
exactly the index (set and order) of the ranked counts series, and likewise
for the three series of `computeSalesMetricsForYear`. -/
theorem metrics_alignment (df : List Row) (fv : String) (y : Int) (oy : Option Int)
    (hd : Bool) (n : Option Nat) :
    ((computeSalesMetrics df fv y hd n).salesKiloTop.map Prod.fst =
        (computeSalesMetrics df fv y hd n).productCategoryCounts.map Prod.fst ∧
      (computeSalesMetrics df fv y hd n).priceKiloTop.map Prod.fst =
        (computeSalesMetrics df fv y hd n).productCategoryCounts.map Prod.fst ∧
      (computeSalesMetrics df fv y hd n).salesUnitTop.map Prod.fst =
        (computeSalesMetrics df fv y hd n).productCategoryCounts.map Prod.fst ∧
      (computeSalesMetrics df fv y hd n).priceUnitTop.map Prod.fst =
        (computeSalesMetrics df fv y hd n).productCategoryCounts.map Prod.fst ∧
      (computeSalesMetrics df fv y hd n).totalPrices.map Prod.fst =
        (computeSalesMetrics df fv y hd n).productCategoryCounts.map Prod.fst) ∧
    ((computeSalesMetricsForYear df oy hd n).salesKiloTop.map Prod.fst =
        (computeSalesMetricsForYear df oy hd n).dimensionCounts.map Prod.fst ∧
      (computeSalesMetricsForYear df oy hd n).salesUnitTop.map Prod.fst =
        (computeSalesMetricsForYear df oy hd n).dimensionCounts.map Prod.fst) :=
  ⟨⟨keys_reindexS _ _ _, keys_reindexS _ _ _, keys_reindexS _ _ _, keys_reindexS _ _ _,
      keys_totalPrices _ _ _ _ _⟩,
    keys_reindexS _ _ _, keys_reindexS _ _ _⟩

/-- C3: for a dimension value `v` of the ranked index with no `KILOGRAM`
rows in the filtered slice, the returned kilogram count and kilogram mean
price at `v` are both `0` (and symmetrically for `UNIT`). -/
theorem computeSalesMetrics_zero_fill (df : List Row) (fv : String) (y : Int)
    (hd : Bool) (n : Option Nat) (v : String)
    (hv : v ∈ (computeSalesMetrics df fv y hd n).productCategoryCounts.map Prod.fst) :
    ((∀ r ∈ filterRows df fv y, ¬(r.price_per = "KILOGRAM" ∧ r.dim = v)) →
      lookupD (computeSalesMetrics df fv y hd n).salesKiloTop v 0 = 0 ∧
        lookupD (computeSalesMetrics df fv y hd n).priceKiloTop v 0 = 0) ∧
    ((∀ r ∈ filterRows df fv y, ¬(r.price_per = "UNIT" ∧ r.dim = v)) →
      lookupD (computeSalesMetrics df fv y hd n).salesUnitTop v 0 = 0 ∧
        lookupD (computeSalesMetrics df fv y hd n).priceUnitTop v 0 = 0) := by
  have key : ∀ pp : String, (∀ r ∈ filterRows df fv y, ¬(r.price_per = pp ∧ r.dim = v)) →
      v ∉ ((filterRows df fv y).filter (fun r => r.price_per == pp)).map
        (fun r => r.dim) := by
    intro pp h hmem
    rcases List.mem_map.mp hmem with ⟨r, hr, hrd⟩
    rcases List.mem_filter.mp hr with ⟨hrf, hrp⟩
    exact h r hrf ⟨by simpa using hrp, hrd⟩
  have hv2 : v ∈ (if hd then headS n (valueCounts ((filterRows df fv y).map (fun r => r.dim)))
      else valueCounts ((filterRows df fv y).map (fun r => r.dim))).map Prod.fst := hv
  constructor
  · intro h
    have hnot := key "KILOGRAM" h
    constructor
    · show lookupD (reindexS (valueCounts _) _ 0) v 0 = 0
      rw [lookupD_reindexS _ _ _ _ hv2]
      exact lookupD_not_mem _ _ _ (fun hc => hnot ((keys_valueCounts _ _).mp hc))
    · show lookupD (reindexS (groupbyMeanPrice _) _ 0) v 0 = 0
      rw [lookupD_reindexS _ _ _ _ hv2]
      refine lookupD_not_mem _ _ _ (fun hc => hnot ?_)
      rw [keys_groupbyMeanPrice] at hc
      exact (mem_distinctVals _ _).mp hc
  · intro h
    have hnot := key "UNIT" h
    constructor
    · show lookupD (reindexS (valueCounts _) _ 0) v 0 = 0
      rw [lookupD_reindexS _ _ _ _ hv2]
      exact lookupD_not_mem _ _ _ (fun hc => hnot ((keys_valueCounts _ _).mp hc))
    · show lookupD (reindexS (groupbyMeanPrice _) _ 0) v 0 = 0
      rw [lookupD_reindexS _ _ _ _ hv2]
      refine lookupD_not_mem _ _ _ (fun hc => hnot ?_)
      rw [keys_groupbyMeanPrice] at hc
      exact (mem_distinctVals _ _).mp hc

theorem computeSalesMetrics_zero_fill_witness :
    ("B" ∈ (computeSalesMetrics dfW "EUR" 2023 false none).productCategoryCounts.map Prod.fst) ∧
      (∀ r ∈ filterRows dfW "EUR" 2023, ¬(r.price_per = "KILOGRAM" ∧ r.dim = "B")) ∧
      lookupD (computeSalesMetrics dfW "EUR" 2023 false none).salesKiloTop "B" 0 = 0 ∧
      lookupD (computeSalesMetrics dfW "EUR" 2023 false none).priceKiloTop "B" 0 = 0 :=
  ⟨by decide, by decide,
    (computeSalesMetrics_zero_fill dfW "EUR" 2023 false none "B" (by decide)).1 (by decide)⟩

/-- C5: with `head = True` and `n` unspecified (`None`), both entry points
return exactly what `head = False` returns — no truncation. -/
theorem head_none_no_truncation (df : List Row) (fv : String) (y : Int)
    (oy : Option Int) :
    computeSalesMetrics df fv y true none = computeSalesMetrics df fv y false none ∧
      computeSalesMetricsForYear df oy true none =
        computeSalesMetricsForYear df oy false none :=
  ⟨rfl, rfl⟩

/-- C4: with `head=True, n=k`, the ranked counts series has exactly
`min(k, number of distinct dimension values in the filtered slice)` entries
in descending-count order; with `head=False` it has an entry for every
distinct dimension value of the filtered slice — for both entry points. -/
theorem topN_truncation (df : List Row) (fv : String) (y : Int) (oy : Option Int)
    (k : Nat) :
    ((computeSalesMetrics df fv y true (some k)).productCategoryCounts.length =
        min k (distinctVals ((filterRows df fv y).map (fun r => r.dim))).length ∧
      (computeSalesMetrics df fv y true (some k)).productCategoryCounts.Pairwise
        (fun a b => b.2 ≤ a.2) ∧
      ∀ v, v ∈ (computeSalesMetrics df fv y false none).productCategoryCounts.map Prod.fst ↔
        v ∈ (filterRows df fv y).map (fun r => r.dim)) ∧
    ((computeSalesMetricsForYear df oy true (some k)).dimensionCounts.length =
        min k (distinctVals ((filterRowsYear df oy).map (fun r => r.dim))).length ∧
      (computeSalesMetricsForYear df oy true (some k)).dimensionCounts.Pairwise
        (fun a b => b.2 ≤ a.2) ∧
      ∀ v, v ∈ (computeSalesMetricsForYear df oy false none).dimensionCounts.map Prod.fst ↔
        v ∈ (filterRowsYear df oy).map (fun r => r.dim)) := by
  refine ⟨⟨?_, ?_, ?_⟩, ?_, ?_, ?_⟩
  · show ((valueCounts ((filterRows df fv y).map (fun r => r.dim))).take k).length = _
    rw [List.length_take, length_valueCounts]
  · exact List.Pairwise.sublist (List.take_sublist _ _) (valueCounts_sorted _)
  · exact fun v => keys_valueCounts _ v
  · show ((valueCounts ((filterRowsYear df oy).map (fun r => r.dim))).take k).length = _
    rw [List.length_take, length_valueCounts]
  · exact List.Pairwise.sublist (List.take_sublist _ _) (valueCounts_sorted _)
  · exact fun v => keys_valueCounts _ v

/-! ## Activity filter (C6, C8) -/

lemma mem_validItemsOf (dfF : List Row) (ms mm : Nat) (v : String) :
    v ∈ validItemsOf dfF ms mm ↔
      v ∈ dfF.map (fun r => r.dim) ∧ ms ≤ itemCount dfF v ∧ mm ≤ monthCount dfF v := by
  unfold validItemsOf
  simp only [List.mem_filter, List.mem_map, List.mem_filter, decide_eq_true_eq,
    mem_distinctVals]
  constructor
  · rintro ⟨⟨p, ⟨⟨w, hw, rfl⟩, hs⟩, rfl⟩, h2⟩
    exact ⟨hw, hs, by
      rcases h2 with ⟨q, ⟨⟨u, _, rfl⟩, hmq⟩, hq⟩
      subst hq
      exact hmq⟩
  · rintro ⟨hw, hs, hm⟩
    exact ⟨⟨(v, itemCount dfF v), ⟨⟨v, hw, rfl⟩, hs⟩, rfl⟩,
      ⟨(v, monthCount dfF v), ⟨⟨v, hw, rfl⟩, hm⟩, rfl⟩⟩

lemma filterItems_eq (df : List Row) (fv : String) (y : Int) (ms mm : Nat) :
    filterItemsByMinSales df fv y ms mm =
      (filterRows df fv y).filter (fun r =>
        decide (ms ≤ itemCount (filterRows df fv y) r.dim) &&
          decide (mm ≤ monthCount (filterRows df fv y) r.dim)) := by
  unfold filterItemsByMinSales
  refine List.filter_congr ?_
  intro r hr
  have hmem : r.dim ∈ (filterRows df fv y).map (fun x => x.dim) :=
    List.mem_map.mpr ⟨r, hr, rfl⟩
  have hiff : (r.dim ∈ validItemsOf (filterRows df fv y) ms mm) ↔
      (ms ≤ itemCount (filterRows df fv y) r.dim ∧
        mm ≤ monthCount (filterRows df fv y) r.dim) := by
    rw [mem_validItemsOf]
    exact ⟨fun h => h.2, fun h => ⟨hmem, h⟩⟩
  by_cases hb : ms ≤ itemCount (filterRows df fv y) r.dim
  · by_cases hc : mm ≤ monthCount (filterRows df fv y) r.dim
    · have hm : r.dim ∈ validItemsOf (filterRows df fv y) ms mm := hiff.mpr ⟨hb, hc⟩
      simp [hm, hb, hc]
    · have hm : r.dim ∉ validItemsOf (filterRows df fv y) ms mm :=
        fun h => hc (hiff.mp h).2
      simp [hm, hb, hc]
  · have hm : r.dim ∉ validItemsOf (filterRows df fv y) ms mm :=
      fun h => hb (hiff.mp h).1
    simp [hm, hb]

/-- C6: the set of dimension values whose rows appear in the output of
`filterItemsByMinSales` is the intersection of the `≥ minSales` set and the
`≥ minMonths` set, each computed independently over the filtered slice, and
the output is exactly the rows of the filtered slice whose dimension value
lies in that intersection. -/
theorem activity_filter_intersection (df : List Row) (fv : String) (y : Int)
    (ms mm : Nat) :
    (∀ v : String, v ∈ (filterItemsByMinSales df fv y ms mm).map (fun r => r.dim) ↔
        (v ∈ (filterRows df fv y).map (fun r => r.dim) ∧
            ms ≤ itemCount (filterRows df fv y) v) ∧
          (v ∈ (filterRows df fv y).map (fun r => r.dim) ∧
            mm ≤ monthCount (filterRows df fv y) v)) ∧
      filterItemsByMinSales df fv y ms mm =
        (filterRows df fv y).filter (fun r =>
          decide (ms ≤ itemCount (filterRows df fv y) r.dim) &&
            decide (mm ≤ monthCount (filterRows df fv y) r.dim)) := by
  refine ⟨fun v => ?_, filterItems_eq df fv y ms mm⟩
  rw [filterItems_eq df fv y ms mm]
  simp only [List.mem_map, List.mem_filter, Bool.and_eq_true, decide_eq_true_eq]
  constructor
  · rintro ⟨r, ⟨hr, hs, hm⟩, rfl⟩
    exact ⟨⟨⟨r, hr, rfl⟩, hs⟩, ⟨r, hr, rfl⟩, hm⟩
  · rintro ⟨⟨⟨r, hr, rfl⟩, hs⟩, _, hm⟩
    exact ⟨r, ⟨hr, hs, hm⟩, rfl⟩

/-- C8: `filterItemsByMinSales` is total and silent on empty data: an empty
input table, an empty filtered slice, or thresholds met by no dimension
value all yield an empty output table. -/
theorem activity_filter_empty (df : List Row) (fv : String) (y : Int)
    (ms mm : Nat) :
    (df = [] → filterItemsByMinSales df fv y ms mm = []) ∧
      (filterRows df fv y = [] → filterItemsByMinSales df fv y ms mm = []) ∧
      ((∀ v ∈ (filterRows df fv y).map (fun r => r.dim),
          ¬(ms ≤ itemCount (filterRows df fv y) v ∧
            mm ≤ monthCount (filterRows df fv y) v)) →
        filterItemsByMinSales df fv y ms mm = []) := by
  refine ⟨?_, ?_, ?_⟩
  · rintro rfl
    rfl
  · intro h
    rw [filterItems_eq, h]
    rfl
  · intro h
    rw [filterItems_eq]
    refine List.filter_eq_nil_iff.mpr ?_
    intro r hr
    have := h r.dim (List.mem_map.mpr ⟨r, hr, rfl⟩)
    simp only [Bool.and_eq_true, decide_eq_true_eq]
    exact fun hc => this hc

theorem activity_filter_empty_witness :
    (∀ v ∈ (filterRows dfW "EUR" 2023).map (fun r => r.dim),
        ¬(100 ≤ itemCount (filterRows dfW "EUR" 2023) v ∧
          2 ≤ monthCount (filterRows dfW "EUR" 2023) v)) ∧
      filterItemsByMinSales dfW "EUR" 2023 100 2 = [] :=
  ⟨by decide, (activity_filter_empty dfW "EUR" 2023 100 2).2.2 (by decide)⟩

/-! ## Trend builder (C7, C10) -/

lemma trendBlock_item_of_mem (d : List Row) (j : String) :
    ∀ tr ∈ trendBlock d j, tr.item = j := by
  intro tr htr
  rcases List.mem_map.mp htr with ⟨m, _, rfl⟩
  rfl

lemma filter_trendBlock_self (d : List Row) (j : String) :
    (trendBlock d j).filter (fun tr => tr.item == j) = trendBlock d j := by
  refine List.filter_eq_self.mpr ?_
  intro tr htr
  rw [trendBlock_item_of_mem d j tr htr]
  exact beq_self_eq_true j

lemma filter_trendBlock_ne (d : List Row) (j i : String) (h : j ≠ i) :
    (trendBlock d j).filter (fun tr => tr.item == i) = [] := by
  refine List.filter_eq_nil_iff.mpr ?_
  intro tr htr
  rw [trendBlock_item_of_mem d j tr htr]
  exact fun hc => h (by simpa using hc)

lemma filter_flatten_not_mem (d : List Row) (js : List String) (item : String)
    (h : item ∉ js) :
    ((js.map (fun j => trendBlock d j)).flatten).filter
      (fun tr => tr.item == item) = [] := by
  induction js with
  | nil => rfl
  | cons j rest ih =>
    simp only [List.map_cons, List.flatten_cons, List.filter_append]
    rw [filter_trendBlock_ne d j item (fun hj => h (hj ▸ List.mem_cons_self j rest)),
      ih (fun hr => h (List.mem_cons_of_mem j hr)), List.append_nil]

lemma filter_flatten_blocks (d : List Row) (items : List String) (item : String)
    (hnd : items.Nodup) (hmem : item ∈ items) :
    ((items.map (fun j => trendBlock d j)).flatten).filter
      (fun tr => tr.item == item) = trendBlock d item := by
  induction items with
  | nil => cases hmem
  | cons j rest ih =>
    rcases List.nodup_cons.mp hnd with ⟨hj, hrest⟩
    simp only [List.map_cons, List.flatten_cons, List.filter_append]
    rcases List.mem_cons.mp hmem with rfl | hmem2
    · rw [filter_trendBlock_self, filter_flatten_not_mem d rest item hj, List.append_nil]
    · rw [filter_trendBlock_ne d j item (fun hji => hj (hji ▸ hmem2)),
        List.nil_append, ih hrest hmem2]

lemma sum_map_add_nat {α : Type} (l : List α) (f g : α → Nat) :
    (l.map (fun x => f x + g x)).sum = (l.map f).sum + (l.map g).sum := by
  induction l with
  | nil => rfl
  | cons x xs ih =>
    simp only [List.map_cons, List.sum_cons, ih]
    omega

lemma sum_indicator_one (M : List Int) (a : Int) (hM : M.Nodup) (ha : a ∈ M) :
    (M.map (fun m => if a = m then 1 else 0)).sum = 1 := by
  induction M with
  | nil => cases ha
  | cons m ms ih =>
    rcases List.nodup_cons.mp hM with ⟨hm, hms⟩
    simp only [List.map_cons, List.sum_cons]
    rcases List.mem_cons.mp ha with rfl | ha2
    · have hz : (ms.map (fun x => if a = x then 1 else 0)).sum = 0 := by
        refine List.sum_eq_zero ?_
        intro x hx
        rcases List.mem_map.mp hx with ⟨m2, hm2, rfl⟩
        have hne : a ≠ m2 := fun hc => hm (hc ▸ hm2)
        simp [hne]
      simp [hz]
    · have hne : a ≠ m := fun hc => hm (hc ▸ ha2)
      simp only [hne, if_false, ih hms ha2]

lemma sum_month_buckets (l : List Row) (M : List Int) (hM : M.Nodup)
    (h : ∀ r ∈ l, r.month ∈ M) :
    (M.map (fun m => (l.filter (fun r => r.month == m)).length)).sum = l.length := by
  induction l with
  | nil => simp
  | cons r rs ih =>
    have hr : r.month ∈ M := h r (List.mem_cons_self r rs)
    have hrs : ∀ x ∈ rs, x.month ∈ M := fun x hx => h x (List.mem_cons_of_mem r hx)
    have hexp : M.map (fun m => ((r :: rs).filter (fun x => x.month == m)).length) =
        M.map (fun m => (if r.month = m then 1 else 0) +
          (rs.filter (fun x => x.month == m)).length) := by
      refine List.map_congr_left ?_
      intro m _
      by_cases hc : r.month = m
      · simp [List.filter_cons, hc, Nat.add_comm]
      · have hb : (r.month == m) = false := beq_eq_false_iff_ne.mpr hc
        simp [List.filter_cons, hb, hc]
    rw [hexp, sum_map_add_nat, sum_indicator_one M r.month hM hr, ih hrs]
    simp [Nat.add_comm]

lemma allMonths_nodup : allMonths.Nodup := by decide

lemma trendBlock_counts_sum (dfF : List Row) (item : String)
    (hm : ∀ r ∈ dfF, 1 ≤ r.month ∧ r.month ≤ 12) :
    ((trendBlock dfF item).map (fun tr => tr.count)).sum =
      (dfF.filter (fun r => r.dim == item)).length := by
  have hmem : ∀ r ∈ dfF.filter (fun r => r.dim == item), r.month ∈ allMonths := by
    intro r hr
    have hb := hm r (List.mem_of_mem_filter hr)
    simp only [allMonths]
    refine List.mem_map.mpr ⟨(r.month - 1).toNat, List.mem_range.mpr ?_, ?_⟩
    · omega
    · omega
  have hmap : (trendBlock dfF item).map (fun tr => tr.count) =
      allMonths.map
        (fun mi => ((dfF.filter (fun r => r.dim == item)).filter
          (fun r => r.month == mi)).length) := by
    simp only [trendBlock, List.map_map]
    rfl
  rw [hmap]
  exact sum_month_buckets _ _ allMonths_nodup hmem

lemma trendBlock_map_item (d : List Row) (j : String) :
    (trendBlock d j).map (fun tr => tr.item) = List.replicate 12 j := by
  simp only [trendBlock, List.map_map]
  rfl

/-- C7: for every item of `selectedItems`, the trend table contains exactly
12 rows tagged with that item, with months 1..12 in ascending order; each
such row's count equals the number of rows of the filtered slice matching
that item and that row's month (so a month with no matching rows has count
0), and the counts sum to the number of rows of the filtered slice matching
the item; with an empty input table every such count is 0; per-item blocks
appear in the order of `selectedItems` (the item column is each selected
item repeated 12 times, in list order). -/
theorem trend_density (df : List Row) (fv : String) (y : Int)
    (items : List String) (item : String)
    (hm : ∀ r ∈ df, 1 ≤ r.month ∧ r.month ≤ 12)
    (hnd : items.Nodup) (hmem : item ∈ items) :
    (((makeDfTrendData df fv y items).getD []).filter
        (fun tr => tr.item == item)).length = 12 ∧
      (((makeDfTrendData df fv y items).getD []).filter
        (fun tr => tr.item == item)).map (fun tr => tr.month) =
        ([1, 2, 3, 4, 5, 6, 7, 8, 9, 10, 11, 12] : List Int) ∧
      (∀ tr ∈ ((makeDfTrendData df fv y items).getD []).filter
        (fun tr => tr.item == item),
        tr.count = (((filterRows df fv y).filter (fun r => r.dim == item)).filter
          (fun r => r.month == tr.month)).length) ∧
      (∀ tr ∈ ((makeDfTrendData df fv y items).getD []).filter
        (fun tr => tr.item == item),
        (∀ r ∈ filterRows df fv y, ¬(r.dim = item ∧ r.month = tr.month)) →
          tr.count = 0) ∧
      ((((makeDfTrendData df fv y items).getD []).filter
        (fun tr => tr.item == item)).map (fun tr => tr.count)).sum =
        ((filterRows df fv y).filter (fun r => r.dim == item)).length ∧
      (df = [] → ∀ tr ∈ ((makeDfTrendData df fv y items).getD []).filter
        (fun tr => tr.item == item), tr.count = 0) ∧
      ((makeDfTrendData df fv y items).getD []).map (fun tr => tr.item) =
        (items.map (fun j => List.replicate 12 j)).flatten := by
  have hsel : ((makeDfTrendData df fv y items).getD []).filter
      (fun tr => tr.item == item) = trendBlock (filterRows df fv y) item := by
    cases items with
    | nil => cases hmem
    | cons a as =>
      have hval : makeDfTrendData df fv y (a :: as) =
          some (((a :: as).map (fun i => trendBlock (filterRows df fv y) i)).flatten) := rfl
      rw [hval, Option.getD_some]
      exact filter_flatten_blocks _ _ _ hnd hmem
  refine ⟨?_, ?_, ?_, ?_, ?_, ?_, ?_⟩
  · rw [hsel]
    simp only [trendBlock, List.length_map]
    rfl
  · rw [hsel]
    simp only [trendBlock, List.map_map]
    rfl
  · rw [hsel]
    intro tr htr
    rcases List.mem_map.mp htr with ⟨mi, _, rfl⟩
    rfl
  · rw [hsel]
    intro tr htr hno
    rcases List.mem_map.mp htr with ⟨mi, _, rfl⟩
    show (((filterRows df fv y).filter (fun r => r.dim == item)).filter
      (fun r => r.month == mi)).length = 0
    have hnil : ((filterRows df fv y).filter (fun r => r.dim == item)).filter
        (fun r => r.month == mi) = [] := by
      refine List.filter_eq_nil_iff.mpr ?_
      intro r hr hc
      rcases List.mem_filter.mp hr with ⟨hrf, hrd⟩
      exact hno r hrf ⟨by simpa using hrd, by simpa using hc⟩
    rw [hnil]
    rfl
  · rw [hsel]
    exact trendBlock_counts_sum _ item (fun r hr => hm r (List.mem_of_mem_filter hr))
  · intro hdf
    subst hdf
    rw [hsel]
    intro tr htr
    rcases List.mem_map.mp htr with ⟨m, _, rfl⟩
    rfl
  · cases items with
    | nil => cases hmem
    | cons a as =>
      have hval : makeDfTrendData df fv y (a :: as) =
          some (((a :: as).map (fun i => trendBlock (filterRows df fv y) i)).flatten) := rfl
      rw [hval, Option.getD_some, List.map_flatten, List.map_map]
      refine congrArg List.flatten (List.map_congr_left ?_)
      intro j _
      exact trendBlock_map_item _ j

theorem trend_density_witness :
    (∀ r ∈ dfW, 1 ≤ r.month ∧ r.month ≤ 12) ∧
      (["A", "B"] : List String).Nodup ∧ "A" ∈ (["A", "B"] : List String) ∧
      ((((makeDfTrendData dfW "EUR" 2023 ["A", "B"]).getD []).filter
          (fun tr => tr.item == "A")).length = 12 ∧
        (((makeDfTrendData dfW "EUR" 2023 ["A", "B"]).getD []).filter
          (fun tr => tr.item == "A")).map (fun tr => tr.month) =
          ([1, 2, 3, 4, 5, 6, 7, 8, 9, 10, 11, 12] : List Int) ∧
        (∀ tr ∈ ((makeDfTrendData dfW "EUR" 2023 ["A", "B"]).getD []).filter
          (fun tr => tr.item == "A"),
          tr.count = (((filterRows dfW "EUR" 2023).filter (fun r => r.dim == "A")).filter
            (fun r => r.month == tr.month)).length) ∧
        (∀ tr ∈ ((makeDfTrendData dfW "EUR" 2023 ["A", "B"]).getD []).filter
          (fun tr => tr.item == "A"),
          (∀ r ∈ filterRows dfW "EUR" 2023, ¬(r.dim = "A" ∧ r.month = tr.month)) →
            tr.count = 0) ∧
        ((((makeDfTrendData dfW "EUR" 2023 ["A", "B"]).getD []).filter
          (fun tr => tr.item == "A")).map (fun tr => tr.count)).sum =
          ((filterRows dfW "EUR" 2023).filter (fun r => r.dim == "A")).length ∧
        (dfW = [] → ∀ tr ∈ ((makeDfTrendData dfW "EUR" 2023 ["A", "B"]).getD []).filter
          (fun tr => tr.item == "A"), tr.count = 0) ∧
        ((makeDfTrendData dfW "EUR" 2023 ["A", "B"]).getD []).map (fun tr => tr.item) =
          ((["A", "B"] : List String).map (fun j => List.replicate 12 j)).flatten) :=
  ⟨by decide, by decide, by decide,
    trend_density dfW "EUR" 2023 ["A", "B"] "A" (by decide) (by decide) (by decide)⟩

/-- C10: calling `makeDfTrendData` with an empty `selectedItems` list makes
`pd.concat` receive no blocks and raise (`none`), rather than returning an
empty trend table. -/
theorem makeDfTrendData_empty_items (df : List Row) (fv : String) (y : Int) :
    makeDfTrendData df fv y [] = none := rfl

/-! ## Frame property (C9): the input frame is never written -/

lemma readF_append (s : Store) (v : PdVal) (i : Nat) (h : i < s.length) :
    readF (s ++ [v]) i = readF s i := by
  unfold readF
  exact List.getD_append s [v] (PdVal.rows []) i h

lemma readF_set_ne (s : Store) (j : Nat) (v : PdVal) (i : Nat) (h : j ≠ i) :
    readF (writeF s j v) i = readF s i := by
  unfold readF writeF
  rw [List.getD_eq_getElem?_getD, List.getD_eq_getElem?_getD, List.getElem?_set_ne h]

lemma trendLoopSt_length (d : List Row) (items : List String) (s : Store) :
    s.length ≤ (trendLoopSt d items s).2.length := by
  induction items generalizing s with
  | nil => simp [trendLoopSt]
  | cons item rest ih =>
    show s.length ≤ (trendLoopSt d rest
      (writeF ((s ++ [PdVal.rows (d.filter (fun r => r.dim == item))]) ++
          [PdVal.monthCounts ((trendBlock d item).map (fun tr => (tr.month, tr.count)))])
        (s ++ [PdVal.rows (d.filter (fun r => r.dim == item))]).length
        (PdVal.trend (trendBlock d item)))).2.length
    refine le_trans ?_ (ih _)
    simp [writeF, List.length_set]

lemma trendLoopSt_read (d : List Row) (items : List String) (s : Store) (i : Nat)
    (h : i < s.length) :
    readF (trendLoopSt d items s).2 i = readF s i := by
  induction items generalizing s with
  | nil => rfl
  | cons item rest ih =>
    show readF (trendLoopSt d rest
      (writeF ((s ++ [PdVal.rows (d.filter (fun r => r.dim == item))]) ++
          [PdVal.monthCounts ((trendBlock d item).map (fun tr => (tr.month, tr.count)))])
        (s ++ [PdVal.rows (d.filter (fun r => r.dim == item))]).length
        (PdVal.trend (trendBlock d item)))).2 i = readF s i
    have h1 : i < (s ++ [PdVal.rows (d.filter (fun r => r.dim == item))]).length := by
      simp
      omega
    have h2 : i < ((s ++ [PdVal.rows (d.filter (fun r => r.dim == item))]) ++
        [PdVal.monthCounts ((trendBlock d item).map (fun tr => (tr.month, tr.count)))]).length := by
      simp
      omega
    have h3 : (s ++ [PdVal.rows (d.filter (fun r => r.dim == item))]).length ≠ i := by
      simp
      omega
    rw [ih _ (by simpa [writeF, List.length_set] using h2)]
    rw [readF_set_ne _ _ _ _ h3, readF_append _ _ _ h1, readF_append _ _ _ h]

lemma readF_append2 (s : Store) (a b : PdVal) (i : Nat) (h : i < s.length) :
    readF ((s ++ [a]) ++ [b]) i = readF s i := by
  rw [readF_append _ _ _ (by simp; omega), readF_append _ _ _ h]

lemma readF_append3 (s : Store) (a b c : PdVal) (i : Nat) (h : i < s.length) :
    readF (((s ++ [a]) ++ [b]) ++ [c]) i = readF s i := by
  rw [readF_append _ _ _ (by simp; omega), readF_append2 _ _ _ _ h]

/-- C9: none of the four engine entry points writes to the input frame: the
object held at the input frame id after the call is the object held there
before the call. -/
theorem engine_no_mutation (s : Store) (dfId : Nat) (fv : String) (y : Int)
    (oy : Option Int) (hd : Bool) (n : Option Nat) (ms mm : Nat)
    (items : List String) (h : dfId < s.length) :
    readF (computeSalesMetricsSt s dfId fv y hd n).2 dfId = readF s dfId ∧
      readF (computeSalesMetricsForYearSt s dfId oy hd n).2 dfId = readF s dfId ∧
      readF (filterItemsByMinSalesSt s dfId fv y ms mm).2 dfId = readF s dfId ∧
      readF (makeDfTrendDataSt s dfId fv y items).2 dfId = readF s dfId := by
  refine ⟨?_, ?_, ?_, ?_⟩
  · exact readF_append3 s _ _ _ dfId h
  · cases oy with
    | some yy => exact readF_append3 s _ _ _ dfId h
    | none => exact readF_append2 s _ _ dfId h
  · exact readF_append2 s _ _ dfId h
  · show readF (trendLoopSt
        (filterRows (getRows (readF s dfId)) fv y) items
        (s ++ [PdVal.rows (filterRows (getRows (readF s dfId)) fv y)])).2 dfId =
      readF s dfId
    rw [trendLoopSt_read _ _ _ _ (by simp; omega), readF_append _ _ _ h]

theorem engine_no_mutation_witness :
    (0 < ([PdVal.rows dfW] : Store).length) ∧
      (readF (computeSalesMetricsSt [PdVal.rows dfW] 0 "EUR" 2023 true (some 2)).2 0 =
          readF [PdVal.rows dfW] 0 ∧
        readF (computeSalesMetricsForYearSt [PdVal.rows dfW] 0 (some 2023) true (some 2)).2 0 =
          readF [PdVal.rows dfW] 0 ∧
        readF (filterItemsByMinSalesSt [PdVal.rows dfW] 0 "EUR" 2023 2 1).2 0 =
          readF [PdVal.rows dfW] 0 ∧
        readF (makeDfTrendDataSt [PdVal.rows dfW] 0 "EUR" 2023 ["A"]).2 0 =
          readF [PdVal.rows dfW] 0) :=
  ⟨by decide,
    engine_no_mutation [PdVal.rows dfW] 0 "EUR" 2023 (some 2023) true (some 2) 2 1 ["A"]
      (by decide)⟩
